import Mathlib

/-! # The `primary_key` scraper of `collector/primary.go`

A shallow embedding of `ScrapePrimaryKey` and of the library calls it makes
(`database/sql`, `prometheus`, `fmt`, `strings`, `unicode/utf8`), followed by
the properties of the scraper.

Conventions of the embedding:

* a Go `string` is a list of bytes (`GoString`); a string literal of the source
  is written `lit "..."` and denotes its UTF-8 bytes;
* a Go `error` is an `Error`; a nil error is `none`;
* a call of `Scrape` is described by the `Run` it performs: the query texts the
  database has received once the call is over, the samples sent on the channel,
  and how the call ends (it returns, it panics, or it stays blocked on a channel
  send).
-/

namespace collector

/-! ## Go values -/

/-- A Go `string`: an immutable sequence of bytes, which need not be valid UTF-8. -/
abbrev GoString := List UInt8

/-- UTF-8 encoding of one code point. -/
def utf8Char (c : Char) : List UInt8 :=
  let n := c.toNat
  if n < 0x80 then [UInt8.ofNat n]
  else if n < 0x800 then [UInt8.ofNat (0xC0 + n / 64), UInt8.ofNat (0x80 + n % 64)]
  else if n < 0x10000 then
    [UInt8.ofNat (0xE0 + n / 4096), UInt8.ofNat (0x80 + n / 64 % 64), UInt8.ofNat (0x80 + n % 64)]
  else
    [UInt8.ofNat (0xF0 + n / 262144), UInt8.ofNat (0x80 + n / 4096 % 64),
     UInt8.ofNat (0x80 + n / 64 % 64), UInt8.ofNat (0x80 + n % 64)]

/-- The bytes denoted by a string literal of the source (Go source text is UTF-8). -/
def lit (s : String) : GoString := s.data.flatMap utf8Char

/-- A Go `error` value, identified by its message. The messages of errors made
by the libraries are shortened: only which error it is matters here. -/
structure Error where
  msg : String
deriving DecidableEq, Repr

/-- A finite, non-negative `float64`, denoting the number `mant / 2 ^ scale`. -/
structure float64 where
  mant : Nat
  scale : Nat
deriving DecidableEq, Repr

namespace float64

/-- Order of the denoted numbers: `a.mant / 2 ^ a.scale ≤ b.mant / 2 ^ b.scale`,
with the denominators cleared. -/
instance : LE float64 := ⟨fun a b => a.mant * 2 ^ b.scale ≤ b.mant * 2 ^ a.scale⟩

instance (a b : float64) : Decidable (a ≤ b) :=
  inferInstanceAs (Decidable (a.mant * 2 ^ b.scale ≤ b.mant * 2 ^ a.scale))

/-- The rational number a `float64` denotes. -/
def toRat (a : float64) : ℚ := (a.mant : ℚ) / 2 ^ a.scale

/-- Number of binary digits of `n` (0 for 0), by repeated halving; `fuel` bounds
the number of halvings and `n` itself is always enough. -/
def bitsAux : Nat → Nat → Nat
  | 0, _ => 0
  | fuel + 1, n => if n = 0 then 0 else bitsAux fuel (n / 2) + 1

/-- Number of binary digits of `n`. -/
def bits (n : Nat) : Nat := bitsAux n n

/-- Conversion of the decimal constant `n / d` of the source to `float64`, for
`n = 0` or `1 ≤ n / d < 2 ^ 53`: the significand is cut to 53 binary digits,
rounding to nearest with ties to even. -/
def ofConst (n d : Nat) : float64 :=
  if n = 0 then ⟨0, 0⟩
  else
    let s := 53 - bits (n / d)
    let q := n * 2 ^ s / d
    let r := n * 2 ^ s % d
    let m := if 2 * r < d then q else if d < 2 * r then q + 1 else if q % 2 = 0 then q else q + 1
    ⟨m, s⟩

end float64

/-! ## `unicode/utf8` -/

namespace utf8

/-- Scan of a byte string for well-formed UTF-8: `need` continuation bytes are
still due, and the next one must lie in `[lo, hi]`. The admitted ranges are
those of `utf8.ValidString`: no overlong forms, no surrogates, nothing above
U+10FFFF. -/
def validFrom : Nat → UInt8 → UInt8 → GoString → Bool
  | 0, _, _, [] => true
  | _ + 1, _, _, [] => false
  | 0, _, _, b :: rest =>
    if b < 0x80 then validFrom 0 0x80 0xBF rest
    else if 0xC2 ≤ b && b ≤ 0xDF then validFrom 1 0x80 0xBF rest
    else if b == 0xE0 then validFrom 2 0xA0 0xBF rest
    else if (0xE1 ≤ b && b ≤ 0xEC) || b == 0xEE || b == 0xEF then validFrom 2 0x80 0xBF rest
    else if b == 0xED then validFrom 2 0x80 0x9F rest
    else if b == 0xF0 then validFrom 3 0x90 0xBF rest
    else if 0xF1 ≤ b && b ≤ 0xF3 then validFrom 3 0x80 0xBF rest
    else if b == 0xF4 then validFrom 3 0x80 0x8F rest
    else false
  | n + 1, lo, hi, b :: rest =>
    if lo ≤ b && b ≤ hi then validFrom n 0x80 0xBF rest else false

/-- Go's `utf8.ValidString`: whether `s` consists entirely of valid UTF-8-encoded runes. -/
def ValidString (s : GoString) : Bool := validFrom 0 0x80 0xBF s

end utf8

/-! ## `strings` and `fmt` -/

namespace strings

/-- Go's `strings.Join`: the elements, with `sep` between consecutive ones. -/
def Join : List GoString → GoString → GoString
  | [], _ => []
  | [a], _ => a
  | a :: b :: rest, sep => a ++ sep ++ Join (b :: rest) sep

/-- Go's `strings.HasPrefix`: whether `s` begins with `p`. -/
def HasPrefix (s p : GoString) : Bool := p.isPrefixOf s

end strings

namespace fmt

/-- Go's `fmt.Sprint` applied to a single string operand: the default format of
a string is the string itself. -/
def Sprint (a : GoString) : GoString := a

end fmt

/-! ## `prometheus` -/

namespace prometheus

/-- The setting `model.NameValidationScheme` of `prometheus/common`: which
metric and label names are accepted. -/
inductive ValidationScheme
  | LegacyValidation
  | UTF8Validation
deriving DecidableEq, Repr

/-- Whether every byte of `s`, counted from index `i`, is a letter, `_`, one of
the bytes of `extra`, or a digit at an index other than 0. -/
def legacyBytes (extra : List UInt8) : Nat → GoString → Bool
  | _, [] => true
  | i, b :: rest =>
    ((97 ≤ b && b ≤ 122) || (65 ≤ b && b ≤ 90) || b == 95 || extra.contains b ||
      (48 ≤ b && b ≤ 57 && 0 < i)) && legacyBytes extra (i + 1) rest

/-- The library's `model.IsValidMetricName`. Legacy names match
`[a-zA-Z_:][a-zA-Z0-9_:]*`; under UTF-8 validation any non-empty valid UTF-8
string is a name. -/
def IsValidMetricName (scheme : ValidationScheme) (n : GoString) : Bool :=
  match scheme with
  | .LegacyValidation => !n.isEmpty && legacyBytes [58] 0 n
  | .UTF8Validation => !n.isEmpty && utf8.ValidString n

/-- The library's `model.LabelName.IsValid`. Legacy label names match
`[a-zA-Z_][a-zA-Z0-9_]*`. -/
def IsValidLabelName (scheme : ValidationScheme) (l : GoString) : Bool :=
  match scheme with
  | .LegacyValidation => !l.isEmpty && legacyBytes [] 0 l
  | .UTF8Validation => !l.isEmpty && utf8.ValidString l

/-- The library's `checkLabelName`: a valid label name that does not start with
the reserved `__`. -/
def checkLabelName (scheme : ValidationScheme) (l : GoString) : Bool :=
  IsValidLabelName scheme l && !strings.HasPrefix l (lit "__")

/-- The library's `BuildFQName`: the non-empty ones of namespace, subsystem and
name joined by `_`; empty when the name is empty. -/
def BuildFQName (nspace subsystem name : GoString) : GoString :=
  if name = [] then []
  else if nspace ≠ [] ∧ subsystem ≠ [] then strings.Join [nspace, subsystem, name] (lit "_")
  else if nspace ≠ [] then strings.Join [nspace, name] (lit "_")
  else if subsystem ≠ [] then strings.Join [subsystem, name] (lit "_")
  else name

/-- A metric descriptor (`prometheus.Desc`), without constant labels: the fully
qualified name, the help text, the names of the variable labels, and the error
found while it was built, if any. -/
structure Desc where
  fqName : GoString
  help : GoString
  variableLabels : List GoString
  err : Option Error
deriving DecidableEq, Repr

/-- The library's `NewDesc` with nil constant labels: the descriptor carries an
error when the name is not a valid metric name, when a label name is invalid or
reserved, or when a label name occurs twice. -/
def NewDesc (scheme : ValidationScheme) (fqName help : GoString)
    (variableLabels : List GoString) : Desc :=
  let err : Option Error :=
    if !IsValidMetricName scheme fqName then some ⟨"not a valid metric name"⟩
    else if !variableLabels.all (checkLabelName scheme) then
      some ⟨"not a valid label name"⟩
    else if !decide variableLabels.Nodup then some ⟨"duplicate label names"⟩
    else none
  ⟨fqName, help, variableLabels, err⟩

/-- The library's `ValueType`. -/
inductive ValueType
  | CounterValue
  | GaugeValue
  | UntypedValue
deriving DecidableEq, Repr

/-- A constant metric sample: its descriptor, type and value, and the label
values in the order of the descriptor's variable labels. -/
structure Metric where
  desc : Desc
  valueType : ValueType
  value : float64
  labelValues : List GoString
deriving DecidableEq, Repr

/-- The library's `validateLabelValues`: as many values as the descriptor has
variable labels, each of them valid UTF-8. -/
def validateLabelValues (vals : List GoString) (expectedNumberOfValues : Nat) : Option Error :=
  if vals.length ≠ expectedNumberOfValues then some ⟨"inconsistent label cardinality"⟩
  else if !vals.all utf8.ValidString then some ⟨"label value is not valid UTF-8"⟩
  else none

/-- The library's `NewConstMetric`: fails with the descriptor's error, or with
the error of `validateLabelValues`. -/
def NewConstMetric (desc : Desc) (valueType : ValueType) (value : float64)
    (labelValues : List GoString) : Except Error Metric :=
  match desc.err with
  | some e => .error e
  | none =>
    match validateLabelValues labelValues desc.variableLabels.length with
    | some e => .error e
    | none => .ok ⟨desc, valueType, value, labelValues⟩

/-- The library's `MustNewConstMetric`: as `NewConstMetric`, but an error is
raised as a panic; `.error e` stands for the panic with value `e`. -/
def MustNewConstMetric (desc : Desc) (valueType : ValueType) (value : float64)
    (labelValues : List GoString) : Except Error Metric :=
  NewConstMetric desc valueType value labelValues

end prometheus

/-! ## `context`, `database/sql`, `log/slog`, channels -/

namespace context

/-- A `context.Context`, reduced to its cancellation signal: `Err t` is what
`ctx.Err()` reports at instant `t`, nil (`none`) until the context is cancelled
or its deadline has passed. -/
structure Context where
  Err : Nat → Option Error

end context

namespace sql

/-- One row of a result set, as `Rows.Scan` with three `*string` destinations
sees it: the three converted column values, or the error `Scan` returns. -/
abbrev Row := Except Error (GoString × GoString × GoString)

/-- A result set (`sql.Rows`): the rows for which `Next` reports true, in order,
and `lasterr`, what `Rows.Err` reports once `Next` has reported false: `none`
when the result set was exhausted, the error (a cancelled context, a lost
connection) when the iteration was cut short. -/
structure Rows where
  rows : List Row
  lasterr : Option Error

/-- A database handle (`sql.DB`) with the server behind it: `answer` is what the
server answers to a context and a query text, and `log` holds the texts of the
queries the server has received so far, in order. -/
structure DB where
  answer : context.Context → GoString → Except Error Rows
  log : List GoString

/-- The method `DB.QueryContext`: the server receives the query text, which goes
on its log, and its answer to that text is returned, together with the handle
as it is after the call. -/
def DB.QueryContext (db : DB) (ctx : context.Context) (query : GoString) :
    Except Error Rows × DB :=
  (db.answer ctx query, { db with log := db.log ++ [query] })

end sql

namespace slog

/-- A `slog.Logger`; `Scrape` receives one and never uses it. -/
structure Logger where
  attrs : List GoString

end slog

/-- The channel `ch chan<- prometheus.Metric` as the sender sees it: `room` is
the number of sends it will still take (free buffer slots and receives its
consumer will still perform), and `closed` tells why it takes no more after
these: the channel is closed by then (`true`), or it stays open and its consumer
has stopped draining (`false`). A channel that is closed already has `room` 0. -/
structure MetricChan where
  room : Nat
  closed : Bool
deriving DecidableEq, Repr

/-- What a send statement does: it completes, leaving the channel as given, it
blocks for ever, or it panics. -/
inductive Send
  | done (ch : MetricChan)
  | blocks
  | panics
deriving DecidableEq, Repr

/-- The send statement `ch <- m` of Go: it completes while the channel takes
sends; a send on a closed channel panics; a send on an open channel that nobody
drains blocks for ever. -/
def MetricChan.send (ch : MetricChan) : Send :=
  match ch.room with
  | room + 1 => .done { ch with room := room }
  | 0 => if ch.closed then .panics else .blocks

/-- Modelled from the spec: the type `instance` and its accessor `getDB` are
declared outside primary.go; the spec has an owned handle to one database
connection that exposes an accessor. -/
structure Instance where
  db : sql.DB

/-- Modelled from the spec: the accessor of the connection (`instance.getDB`). -/
def Instance.getDB (i : Instance) : sql.DB := i.db

/-- How a call of a Go function ends: it returns its error result (`none` is
nil), a panic leaves it (nothing here recovers one), or it stays blocked on a
channel send for ever. -/
inductive Outcome
  | returned (err : Option Error)
  | panicked (v : Error)
  | blocked
deriving DecidableEq, Repr

/-- What a call of `Scrape` does: `queries` is the log of the database once the
call is over, the texts of the queries it has received; `sent` holds the
samples sent on the channel, in order; `outcome` is how the call ends. -/
structure Run where
  queries : List GoString
  sent : List prometheus.Metric
  outcome : Outcome
deriving DecidableEq, Repr

/-! ## `collector/primary.go` -/

/-- Package-level values read by primary.go and declared elsewhere: the
constant `namespace` of package `collector` (here `nspace`), and the name
validation scheme of the metrics library. -/
structure Globals where
  nspace : GoString
  NameValidationScheme : prometheus.ValidationScheme

/-- The constant `primarySubsystem`. -/
def primarySubsystem : GoString := lit "primary_key"

/-- The constant `primaryQuery`, a raw string literal: every byte between the
back quotes, line breaks and indentation included. -/
def primaryQuery : GoString :=
  lit "\n" ++
  lit "\t\t  SELECT\n" ++
  lit "\t\t\tt.table_schema ,\n" ++
  lit "\t\t\tt.table_name ,\n" ++
  lit "\t\t\tt.engine \n" ++
  lit "\t\t  FROM\n" ++
  lit "    \t\tinformation_schema.tables t\n" ++
  lit "          LEFT JOIN\n" ++
  lit "\t\t\tinformation_schema.table_constraints tc\n" ++
  lit "\t\t\tON t.table_schema = tc.table_schema\n" ++
  lit "\t\t\tAND t.table_name = tc.table_name\n" ++
  lit "\t\t\tAND tc.constraint_type = 'PRIMARY KEY'\n" ++
  lit "          WHERE\n" ++
  lit "\t\t\tt.table_type = 'BASE TABLE'\n" ++
  lit "\t\t\tAND tc.constraint_type IS NULL\n" ++
  lit "\t\t\tAND t.table_schema!='performance_schema'\n" ++
  lit "\t\t\tAND t.table_schema!='mysql'\n" ++
  lit "          ORDER BY\n" ++
  lit "    \t\tt.table_name;\n" ++
  lit "\t\t"

/-- The variable `PrimarylabelNames`. -/
def PrimarylabelNames : List GoString := [lit "table_schema", lit "table_name", lit "engine"]

/-- The variable `CheckPrimaryKeyDesc`, built when the package is initialised. -/
def CheckPrimaryKeyDesc (g : Globals) : prometheus.Desc :=
  prometheus.NewDesc g.NameValidationScheme
    (prometheus.BuildFQName g.nspace primarySubsystem (lit "check"))
    (lit "Check table have `PRIMARY KEY`.")
    PrimarylabelNames

/-- The type `ScrapePrimaryKey struct{}`. Its doc comment in the source reads
"ScrapeUser collects from `information_schema.processlist`", which is not what
the code below does: the query is over `information_schema.tables`. -/
structure ScrapePrimaryKey where
deriving DecidableEq, Repr

/-- Name of the Scraper. -/
def ScrapePrimaryKey.Name (_ : ScrapePrimaryKey) : GoString := primarySubsystem

/-- Help describes the role of the Scraper. -/
def ScrapePrimaryKey.Help (_ : ScrapePrimaryKey) : GoString :=
  lit "Check table have `PRIMARY KEY`."

/-- Version of MySQL from which the scraper is available: the constant `5.7`
converted to `float64`. -/
def ScrapePrimaryKey.Version (_ : ScrapePrimaryKey) : float64 := float64.ofConst 57 10

/-- The three local variables of `Scrape` that `Scan` writes to; they are
declared once, before the loop, and written again by every iteration. -/
structure ScanVars where
  table_schema : GoString
  table_name : GoString
  engine : GoString
deriving DecidableEq, Repr

/-- The loop `for primaryRows.Next() { ... }` of `Scrape` and the `return nil`
after it, over the rows still to come, the current values of the scan variables
and the channel. `Next` reports false when no row is left, for whatever reason:
the loop ends and nil is returned (`Rows.Err` is not read). In the body, a
failed `Scan` returns its error; otherwise the three variables hold the row,
`MustNewConstMetric` builds the sample from them (or panics), and the sample is
sent with a plain `ch <- ...`, outside any `select`: the send completes, blocks
or panics as the channel has it. -/
def scanRows (g : Globals) :
    List sql.Row → ScanVars → MetricChan → List prometheus.Metric × Outcome
  | [], _, _ => ([], .returned none)
  | row :: rest, vars, ch =>
    match row with
    | .error err => ([], .returned (some err))
    | .ok (a, b, c) =>
      let vars : ScanVars := { vars with table_schema := a, table_name := b, engine := c }
      match prometheus.MustNewConstMetric (CheckPrimaryKeyDesc g) .GaugeValue
          (float64.ofConst 0 1) [vars.table_schema, vars.table_name, vars.engine] with
      | .error p => ([], .panicked p)
      | .ok m =>
        match ch.send with
        | .panics => ([], .panicked ⟨"send on closed channel"⟩)
        | .blocks => ([], .blocked)
        | .done ch =>
          let r := scanRows g rest vars ch
          (m :: r.1, r.2)

/-- Scrape collects data from the database connection and sends it over the
channel as prometheus metrics. The context goes to `QueryContext` and is used
nowhere else; the deferred `primaryRows.Close()` leaves no mark on the `Run`. -/
def ScrapePrimaryKey.Scrape (_ : ScrapePrimaryKey) (g : Globals) (ctx : context.Context)
    (inst : Instance) (ch : MetricChan) (_logger : slog.Logger) : Run :=
  let db := inst.getDB
  let primaryQuery := fmt.Sprint primaryQuery
  let answered := db.QueryContext ctx primaryQuery
  match answered.1 with
  | .error err => ⟨answered.2.log, [], .returned (some err)⟩
  | .ok primaryRows =>
    let r := scanRows g primaryRows.rows ⟨[], [], []⟩ ch
    ⟨answered.2.log, r.1, r.2⟩

/-- Modelled from the spec: the selection rule of the orchestrator, which is not
part of primary.go: a scraper is eligible iff it is enabled by configuration and
its minimum version is at most the reported version. -/
def eligible (enabled : Bool) (minimumVersion reported : float64) : Bool :=
  enabled && decide (minimumVersion ≤ reported)

/-! ## Notions used by the properties -/

/-- The sample the properties expect for a row: descriptor `CheckPrimaryKeyDesc`,
a gauge, value 0, and the row's `table_schema`, `table_name` and `engine` as
label values, in that order. -/
def sampleOf (g : Globals) (r : GoString × GoString × GoString) : prometheus.Metric :=
  { desc := CheckPrimaryKeyDesc g, valueType := .GaugeValue, value := ⟨0, 0⟩,
    labelValues := [r.1, r.2.1, r.2.2] }

/-- Whether the three values of a row are valid UTF-8. -/
def validRow (r : GoString × GoString × GoString) : Bool :=
  utf8.ValidString r.1 && utf8.ValidString r.2.1 && utf8.ValidString r.2.2

/-- Number of positions of `s` at which `p` occurs. -/
def countOcc (p : GoString) : GoString → Nat
  | [] => 0
  | b :: rest => (if p.isPrefixOf (b :: rest) then 1 else 0) + countOcc p rest

/-! ## Inputs at which the properties are evaluated -/

/-- Namespace `mysql`, legacy name validation. -/
def mysqlGlobals : Globals := ⟨lit "mysql", .LegacyValidation⟩

/-- A context that is never cancelled. -/
def liveCtx : context.Context := ⟨fun _ => none⟩

/-- A context that is live at instant 0, when `Scrape` is called, and cancelled
from instant 1 on. -/
def cancelledCtx : context.Context :=
  ⟨fun t => if t = 0 then none else some ⟨"context canceled"⟩⟩

/-- An instance whose database answers every query with `r`. -/
def answering (r : Except Error sql.Rows) : Instance := ⟨⟨fun _ _ => r, []⟩⟩

/-- An instance whose database answers the text `primaryQuery` with `r` and
refuses every other text. -/
def answeringOnly (r : Except Error sql.Rows) : Instance :=
  ⟨⟨fun _ q => if q = primaryQuery then r else .error ⟨"unknown query"⟩, []⟩⟩

/-- A logger. -/
def someLogger : slog.Logger := ⟨[]⟩

/-- Table `shop.orders`, engine InnoDB. -/
def ordersRow : GoString × GoString × GoString := (lit "shop", lit "orders", lit "InnoDB")

/-- Table `shop.logs`, engine MyISAM. -/
def logsRow : GoString × GoString × GoString := (lit "shop", lit "logs", lit "MyISAM")

/-- Table `shop.café` as a latin1 connection delivers its name: the byte 0xE9
for `é`, which is not valid UTF-8. -/
def latin1Row : GoString × GoString × GoString :=
  (lit "shop", lit "caf" ++ [0xE9], lit "InnoDB")

/-- A row whose schema name is the single byte 0xFF. -/
def rawRow : GoString × GoString × GoString := ([0xFF], lit "t", lit "InnoDB")

/-- The error `Scan` returns for a NULL column. -/
def nullError : Error := ⟨"converting NULL to string is unsupported"⟩

/-- A result set of four rows, of which the third does not scan. -/
def thirdRowFails : sql.Rows :=
  ⟨[.ok ordersRow, .ok logsRow, .error nullError, .ok latin1Row], none⟩

/-! ## Lemmas on the embedding -/

theorem desc_variableLabels (g : Globals) :
    (CheckPrimaryKeyDesc g).variableLabels = PrimarylabelNames := rfl

theorem desc_labels_length (g : Globals) :
    (CheckPrimaryKeyDesc g).variableLabels.length = 3 := rfl

/-- With a descriptor free of error and three valid UTF-8 values,
`MustNewConstMetric` returns the expected sample. -/
theorem must_ok (g : Globals) (r : GoString × GoString × GoString)
    (hd : (CheckPrimaryKeyDesc g).err = none) (hv : validRow r = true) :
    prometheus.MustNewConstMetric (CheckPrimaryKeyDesc g) .GaugeValue (float64.ofConst 0 1)
      [r.1, r.2.1, r.2.2] = .ok (sampleOf g r) := by
  simp only [validRow, Bool.and_eq_true] at hv
  obtain ⟨⟨h1, h2⟩, h3⟩ := hv
  simp [prometheus.MustNewConstMetric, prometheus.NewConstMetric, hd,
    prometheus.validateLabelValues, desc_labels_length, h1, h2, h3, sampleOf, float64.ofConst]

/-- Whatever `MustNewConstMetric` returns for a row is the expected sample. -/
theorem must_eq_sample (g : Globals) (r : GoString × GoString × GoString) (m : prometheus.Metric)
    (h : prometheus.MustNewConstMetric (CheckPrimaryKeyDesc g) .GaugeValue (float64.ofConst 0 1)
      [r.1, r.2.1, r.2.2] = .ok m) : m = sampleOf g r := by
  unfold prometheus.MustNewConstMetric prometheus.NewConstMetric at h
  split at h
  · cases h
  · split at h
    · cases h
    · cases h
      simp [sampleOf, float64.ofConst]

/-- With a descriptor free of error, a value that is not valid UTF-8 makes
`MustNewConstMetric` panic. -/
theorem must_panics (g : Globals) (r : GoString × GoString × GoString)
    (hd : (CheckPrimaryKeyDesc g).err = none) (hv : validRow r = false) :
    prometheus.MustNewConstMetric (CheckPrimaryKeyDesc g) .GaugeValue (float64.ofConst 0 1)
      [r.1, r.2.1, r.2.2] = .error ⟨"label value is not valid UTF-8"⟩ := by
  have hv' : utf8.ValidString r.1 = false ∨ utf8.ValidString r.2.1 = false ∨
      utf8.ValidString r.2.2 = false := by
    unfold validRow at hv
    cases h1 : utf8.ValidString r.1 <;> cases h2 : utf8.ValidString r.2.1 <;>
      cases h3 : utf8.ValidString r.2.2 <;> simp_all
  simp [prometheus.MustNewConstMetric, prometheus.NewConstMetric, hd,
    prometheus.validateLabelValues, desc_labels_length, hv']

/-- A send on a channel that takes sends completes and uses one place. -/
theorem send_room (k : Nat) (closed : Bool) :
    MetricChan.send ⟨k + 1, closed⟩ = .done ⟨k, closed⟩ := rfl

/-- One iteration of the loop on a row that scans. -/
theorem scanRows_ok (g : Globals) (r : GoString × GoString × GoString) (rest : List sql.Row)
    (v : ScanVars) (ch : MetricChan) :
    scanRows g (.ok r :: rest) v ch =
      match prometheus.MustNewConstMetric (CheckPrimaryKeyDesc g) .GaugeValue
          (float64.ofConst 0 1) [r.1, r.2.1, r.2.2] with
      | .error p => ([], .panicked p)
      | .ok m =>
        match ch.send with
        | .panics => ([], .panicked ⟨"send on closed channel"⟩)
        | .blocks => ([], .blocked)
        | .done ch =>
          (m :: (scanRows g rest ⟨r.1, r.2.1, r.2.2⟩ ch).1,
            (scanRows g rest ⟨r.1, r.2.1, r.2.2⟩ ch).2) := by
  obtain ⟨a, b, c⟩ := r
  rfl

/-- The loop does not depend on the values the scan variables hold when it is
entered: every iteration overwrites them before reading them. -/
theorem scanRows_vars (g : Globals) (rows : List sql.Row) (v w : ScanVars) (ch : MetricChan) :
    scanRows g rows v ch = scanRows g rows w ch := by
  cases rows with
  | nil => rfl
  | cons row rest =>
    cases row with
    | error e => rfl
    | ok r => rw [scanRows_ok, scanRows_ok]

/-- The loop over a run of rows that scan into valid UTF-8 and fit in the
channel: their samples are sent in order, and the loop goes on with the rows
that follow and the room that is left. -/
theorem scanRows_prefix (g : Globals) (hd : (CheckPrimaryKeyDesc g).err = none)
    (pre : List (GoString × GoString × GoString)) (tail : List sql.Row) (closed : Bool) :
    ∀ (v : ScanVars) (room : Nat), (∀ r ∈ pre, validRow r = true) → pre.length ≤ room →
      scanRows g (pre.map .ok ++ tail) v ⟨room, closed⟩ =
        (pre.map (sampleOf g) ++ (scanRows g tail v ⟨room - pre.length, closed⟩).1,
          (scanRows g tail v ⟨room - pre.length, closed⟩).2) := by
  induction pre with
  | nil => intro v room _ _; simp
  | cons r pre ih =>
    intro v room hv hroom
    have hr : validRow r = true := hv r (List.mem_cons_self _ _)
    have hpre : ∀ x ∈ pre, validRow x = true := fun x hx => hv x (List.mem_cons_of_mem _ hx)
    obtain ⟨k, rfl⟩ : ∃ k, room = k + 1 := ⟨room - 1, by simp at hroom; omega⟩
    have hk : pre.length ≤ k := by simpa using hroom
    simp only [List.map_cons, List.cons_append, scanRows_ok, must_ok g r hd hr, send_room]
    rw [ih ⟨r.1, r.2.1, r.2.2⟩ k hpre hk,
      scanRows_vars g tail ⟨r.1, r.2.1, r.2.2⟩ v ⟨k - pre.length, closed⟩]
    simp

/-- The loop never sends anything but the expected sample of a row of the
result set. -/
theorem scanRows_mem (g : Globals) (rows : List sql.Row) :
    ∀ (v : ScanVars) (ch : MetricChan) (m : prometheus.Metric),
      m ∈ (scanRows g rows v ch).1 → ∃ r, Except.ok r ∈ rows ∧ m = sampleOf g r := by
  induction rows with
  | nil => intro v ch m hm; simp [scanRows] at hm
  | cons row rest ih =>
    intro v ch m hm
    cases row with
    | error e => simp [scanRows] at hm
    | ok r =>
      rw [scanRows_ok] at hm
      split at hm
      · simp at hm
      · rename_i m0 hm0
        split at hm
        · simp at hm
        · simp at hm
        · rename_i ch1 _
          simp only [List.mem_cons] at hm
          rcases hm with rfl | hm
          · exact ⟨r, List.mem_cons_self _ _, must_eq_sample g r m hm0⟩
          · obtain ⟨x, hx, hxm⟩ := ih _ ch1 m hm
            exact ⟨x, List.mem_cons_of_mem _ hx, hxm⟩

/-- The loop does not panic when the descriptor is free of error, the rows that
scan hold valid UTF-8 and the channel is not closed. -/
theorem scanRows_no_panic (g : Globals) (hd : (CheckPrimaryKeyDesc g).err = none)
    (rows : List sql.Row) :
    ∀ (v : ScanVars) (room : Nat), (∀ r, Except.ok r ∈ rows → validRow r = true) →
      ∀ p, (scanRows g rows v ⟨room, false⟩).2 ≠ .panicked p := by
  induction rows with
  | nil => intro v room _ p; simp [scanRows]
  | cons row rest ih =>
    intro v room hv p
    cases row with
    | error e => simp [scanRows]
    | ok r =>
      rw [scanRows_ok, must_ok g r hd (hv r (List.mem_cons_self _ _))]
      cases room with
      | zero => simp [MetricChan.send]
      | succ k =>
        simp only [send_room]
        exact ih _ k (fun x hx => hv x (List.mem_cons_of_mem _ hx)) p

/-- The run of `Scrape` when the query succeeds. -/
theorem scrape_of_rows (s : ScrapePrimaryKey) (g : Globals) (ctx : context.Context)
    (inst : Instance) (ch : MetricChan) (logger : slog.Logger) (rows : sql.Rows)
    (hq : (inst.getDB.QueryContext ctx primaryQuery).1 = .ok rows) :
    s.Scrape g ctx inst ch logger =
      ⟨inst.getDB.log ++ [primaryQuery], (scanRows g rows.rows ⟨[], [], []⟩ ch).1,
        (scanRows g rows.rows ⟨[], [], []⟩ ch).2⟩ := by
  simp only [ScrapePrimaryKey.Scrape, fmt.Sprint, hq]
  rfl

/-- The run of `Scrape` when the query fails. -/
theorem scrape_of_error (s : ScrapePrimaryKey) (g : Globals) (ctx : context.Context)
    (inst : Instance) (ch : MetricChan) (logger : slog.Logger) (e : Error)
    (hq : (inst.getDB.QueryContext ctx primaryQuery).1 = .error e) :
    s.Scrape g ctx inst ch logger =
      ⟨inst.getDB.log ++ [primaryQuery], [], .returned (some e)⟩ := by
  simp only [ScrapePrimaryKey.Scrape, fmt.Sprint, hq]
  rfl

/-- Ordering `float64` values is ordering the numbers they denote. -/
theorem float64_le_iff (a b : float64) : a ≤ b ↔ a.toRat ≤ b.toRat := by
  have ha : (0 : ℚ) < 2 ^ a.scale := by positivity
  have hb : (0 : ℚ) < 2 ^ b.scale := by positivity
  unfold float64.toRat
  rw [div_le_div_iff₀ ha hb]
  show a.mant * 2 ^ b.scale ≤ b.mant * 2 ^ a.scale ↔ _
  exact_mod_cast Iff.rfl

/-- Comparing the decimal 57/10 with a `float64`, denominators cleared. -/
theorem decimal_le_iff (m k : Nat) :
    (57 / 10 : ℚ) ≤ (m : ℚ) / 2 ^ k ↔ 57 * 2 ^ k ≤ 10 * m := by
  have hk : (0 : ℚ) < 2 ^ k := by positivity
  rw [div_le_div_iff₀ (by norm_num) hk]
  constructor
  · intro h
    have h' : ((57 * 2 ^ k : ℕ) : ℚ) ≤ ((m * 10 : ℕ) : ℚ) := by push_cast; exact h
    have := Nat.cast_le.mp h'
    omega
  · intro h
    have h' : ((57 * 2 ^ k : ℕ) : ℚ) ≤ ((m * 10 : ℕ) : ℚ) := Nat.cast_le.mpr (by omega)
    push_cast at h'
    exact h'

/-- No number with a significand below 2 ^ 53 lies between 57/10 and the
`float64` nearest to it: such a number that is at least 57/10 is at least
6417629469002957 / 2 ^ 50. -/
theorem nearest_double_bound (m k : Nat) (hm : m < 2 ^ 53) (h : 57 * 2 ^ k ≤ 10 * m) :
    6417629469002957 * 2 ^ k ≤ m * 2 ^ 50 := by
  by_cases hk : k ≤ 50
  · obtain ⟨d, hd⟩ : ∃ d, 50 = k + d := ⟨50 - k, by omega⟩
    have hpow : 2 ^ k * 2 ^ d = 1125899906842624 := by
      rw [← pow_add, ← hd]; norm_num
    have h1 : 57 * 2 ^ k * 2 ^ d ≤ 10 * m * 2 ^ d := Nat.mul_le_mul_right _ h
    have h2 : 57 * 1125899906842624 ≤ 10 * (m * 2 ^ d) := by
      calc 57 * 1125899906842624 = 57 * 2 ^ k * 2 ^ d := by rw [mul_assoc, hpow]
        _ ≤ 10 * m * 2 ^ d := h1
        _ = 10 * (m * 2 ^ d) := by ring
    have h3 : 6417629469002957 ≤ m * 2 ^ d := by omega
    calc 6417629469002957 * 2 ^ k ≤ m * 2 ^ d * 2 ^ k := Nat.mul_le_mul_right _ h3
      _ = m * (2 ^ k * 2 ^ d) := by ring
      _ = m * 2 ^ 50 := by rw [hpow]; norm_num
  · exfalso
    have h51 : 2 ^ 51 ≤ 2 ^ k := Nat.pow_le_pow_right (by norm_num) (by omega)
    have e51 : (2 : ℕ) ^ 51 = 2251799813685248 := by norm_num
    have e53 : (2 : ℕ) ^ 53 = 9007199254740992 := by norm_num
    rw [e51] at h51
    rw [e53] at hm
    omega


/-! ## Properties of the scraper -/

set_option maxRecDepth 100000

/-- C1, as stated, fails: the query succeeds and both rows scan without error,
but the second row holds a table name that is not valid UTF-8, so
`MustNewConstMetric` panics on it: one sample is written instead of two and
`Scrape` does not return nil. -/
theorem C1_counterexample_non_utf8_row :
    ((answering (.ok ⟨[.ok ordersRow, .ok latin1Row], none⟩)).getDB.QueryContext liveCtx
        primaryQuery).1 = .ok ⟨[ordersRow, latin1Row].map .ok, none⟩ ∧
    (ScrapePrimaryKey.Scrape {} mysqlGlobals liveCtx
        (answering (.ok ⟨[.ok ordersRow, .ok latin1Row], none⟩)) ⟨2, false⟩
        someLogger).outcome = .panicked ⟨"label value is not valid UTF-8"⟩ ∧
    (ScrapePrimaryKey.Scrape {} mysqlGlobals liveCtx
        (answering (.ok ⟨[.ok ordersRow, .ok latin1Row], none⟩)) ⟨2, false⟩
        someLogger).sent = [sampleOf mysqlGlobals ordersRow] := by
  refine ⟨rfl, ?_, ?_⟩ <;> decide

/-- C1, amended: when the query succeeds with a result set of n rows that is
exhausted without iteration error, every row scans without error into three
valid UTF-8 values, the descriptor was built without error and the sink takes n
sends, `Scrape` writes exactly n samples, in row order, and returns nil; the
i-th sample has descriptor `CheckPrimaryKeyDesc`, is a gauge of value 0 and
carries the label values of the i-th row. -/
theorem C1_samples_in_row_order (s : ScrapePrimaryKey) (g : Globals) (ctx : context.Context)
    (inst : Instance) (ch : MetricChan) (logger : slog.Logger)
    (rs : List (GoString × GoString × GoString))
    (hq : (inst.getDB.QueryContext ctx primaryQuery).1 = .ok ⟨rs.map .ok, none⟩)
    (hd : (CheckPrimaryKeyDesc g).err = none)
    (hv : ∀ r ∈ rs, validRow r = true)
    (hroom : rs.length ≤ ch.room) :
    (s.Scrape g ctx inst ch logger).outcome = .returned none ∧
    (s.Scrape g ctx inst ch logger).sent.length = rs.length ∧
    (s.Scrape g ctx inst ch logger).sent =
      rs.map (fun r => { desc := CheckPrimaryKeyDesc g, valueType := .GaugeValue,
                         value := ⟨0, 0⟩, labelValues := [r.1, r.2.1, r.2.2] }) ∧
    (⟨0, 0⟩ : float64).toRat = 0 := by
  obtain ⟨room, closed⟩ := ch
  have h := scanRows_prefix g hd rs [] closed ⟨[], [], []⟩ room hv hroom
  rw [List.append_nil] at h
  rw [scrape_of_rows s g ctx inst ⟨room, closed⟩ logger _ hq]
  simp only [h]
  refine ⟨by simp [scanRows], by simp [scanRows], ?_, by simp [float64.toRat]⟩
  simp only [scanRows, List.append_nil]
  rfl

/-- C1 at a concrete input: two rows, both sampled, in order. -/
theorem C1_witness_two_rows :
    (ScrapePrimaryKey.Scrape {} mysqlGlobals liveCtx
        (answering (.ok ⟨[ordersRow, logsRow].map .ok, none⟩)) ⟨2, false⟩
        someLogger).outcome = .returned none ∧
    (ScrapePrimaryKey.Scrape {} mysqlGlobals liveCtx
        (answering (.ok ⟨[ordersRow, logsRow].map .ok, none⟩)) ⟨2, false⟩
        someLogger).sent = [sampleOf mysqlGlobals ordersRow, sampleOf mysqlGlobals logsRow] :=
  have h := C1_samples_in_row_order {} mysqlGlobals liveCtx
    (answering (.ok ⟨[ordersRow, logsRow].map .ok, none⟩)) ⟨2, false⟩ someLogger
    [ordersRow, logsRow] rfl (by decide) (by decide) (by decide)
  ⟨h.1, h.2.2.1⟩

/-- C2 fails on the code: the iteration delivers one row and is then cut short
by the cancellation of the context (`Rows.Err` would report it), yet `Scrape`
returns nil after sending the one sample. -/
theorem C2_iteration_error_returns_nil :
    (ScrapePrimaryKey.Scrape {} mysqlGlobals cancelledCtx
        (answering (.ok ⟨[.ok ordersRow], some ⟨"context canceled"⟩⟩)) ⟨1, false⟩
        someLogger).outcome = .returned none ∧
    (ScrapePrimaryKey.Scrape {} mysqlGlobals cancelledCtx
        (answering (.ok ⟨[.ok ordersRow], some ⟨"context canceled"⟩⟩)) ⟨1, false⟩
        someLogger).sent = [sampleOf mysqlGlobals ordersRow] := by
  constructor <;> decide

/-- C3, as stated, fails: for a row whose schema name is the byte 0xFF,
`MustNewConstMetric` does not succeed and `Scrape` ends in a panic, not in an
error result. -/
theorem C3_counterexample_panic :
    prometheus.MustNewConstMetric (CheckPrimaryKeyDesc mysqlGlobals) .GaugeValue
        (float64.ofConst 0 1) [rawRow.1, rawRow.2.1, rawRow.2.2] =
      .error ⟨"label value is not valid UTF-8"⟩ ∧
    (ScrapePrimaryKey.Scrape {} mysqlGlobals liveCtx
        (answering (.ok ⟨[.ok rawRow], none⟩)) ⟨1, false⟩ someLogger).outcome =
      .panicked ⟨"label value is not valid UTF-8"⟩ :=
  ⟨must_panics mysqlGlobals rawRow (by decide) (by decide), by decide⟩

/-- C3, amended: when the descriptor was built without error, every row of the
result set that scans holds three valid UTF-8 values and the sink is not
closed, `Scrape` does not panic: for any three valid UTF-8 values
`MustNewConstMetric` succeeds, a failure e of the query is returned as the
error result e with nothing written, and the failure e of the first scan that
fails, the sink taking the samples of the rows before it, is returned as the
error result e. -/
theorem C3_no_panic_on_valid_utf8 (s : ScrapePrimaryKey) (g : Globals) (ctx : context.Context)
    (inst : Instance) (ch : MetricChan) (logger : slog.Logger)
    (hd : (CheckPrimaryKeyDesc g).err = none)
    (hv : ∀ rows r, (inst.getDB.QueryContext ctx primaryQuery).1 = .ok rows →
      Except.ok r ∈ rows.rows → validRow r = true)
    (hc : ch.closed = false) :
    (∀ p, (s.Scrape g ctx inst ch logger).outcome ≠ .panicked p) ∧
    (∀ r, validRow r = true →
      prometheus.MustNewConstMetric (CheckPrimaryKeyDesc g) .GaugeValue (float64.ofConst 0 1)
        [r.1, r.2.1, r.2.2] = .ok (sampleOf g r)) ∧
    (∀ e, (inst.getDB.QueryContext ctx primaryQuery).1 = .error e →
      (s.Scrape g ctx inst ch logger).outcome = .returned (some e) ∧
      (s.Scrape g ctx inst ch logger).sent = []) ∧
    (∀ (pre : List (GoString × GoString × GoString)) (e : Error) (rest : List sql.Row)
        (lasterr : Option Error),
      (inst.getDB.QueryContext ctx primaryQuery).1 =
          .ok ⟨pre.map .ok ++ .error e :: rest, lasterr⟩ →
      pre.length ≤ ch.room →
      (s.Scrape g ctx inst ch logger).outcome = .returned (some e)) := by
  obtain ⟨room, closed⟩ := ch
  simp only at hc
  subst hc
  refine ⟨fun p => ?_, fun r hr => must_ok g r hd hr, fun e hq => ?_,
    fun pre e rest lasterr hq hroom => ?_⟩
  · cases hq : (inst.getDB.QueryContext ctx primaryQuery).1 with
    | error e => rw [scrape_of_error s g ctx inst _ logger e hq]; simp
    | ok rows =>
      rw [scrape_of_rows s g ctx inst _ logger rows hq]
      exact scanRows_no_panic g hd rows.rows _ _ (fun r hr => hv rows r hq hr) p
  · rw [scrape_of_error s g ctx inst _ logger e hq]
    exact ⟨rfl, rfl⟩
  · have hpre : ∀ r ∈ pre, validRow r = true := by
      intro r hr
      refine hv _ r hq ?_
      simp only [List.mem_append, List.mem_map]
      exact Or.inl ⟨r, hr, rfl⟩
    have h := scanRows_prefix g hd pre (.error e :: rest) false ⟨[], [], []⟩ room hpre hroom
    rw [scrape_of_rows s g ctx inst _ logger _ hq]
    simp only [h]
    simp [scanRows]

/-- C3 at a concrete input: a row that scans, then a row whose scan fails; the
failure is what `Scrape` returns. -/
theorem C3_witness_scan_error :
    (ScrapePrimaryKey.Scrape {} mysqlGlobals liveCtx
        (answering (.ok ⟨[.ok ordersRow, .error nullError], none⟩)) ⟨2, false⟩
        someLogger).outcome = .returned (some nullError) ∧
    prometheus.MustNewConstMetric (CheckPrimaryKeyDesc mysqlGlobals) .GaugeValue
        (float64.ofConst 0 1) [logsRow.1, logsRow.2.1, logsRow.2.2] =
      .ok (sampleOf mysqlGlobals logsRow) :=
  have h := C3_no_panic_on_valid_utf8 {} mysqlGlobals liveCtx
    (answering (.ok ⟨[.ok ordersRow, .error nullError], none⟩)) ⟨2, false⟩ someLogger
    (by decide)
    (by
      intro rows r hq hr
      cases hq
      simp only [List.mem_cons, List.mem_singleton, List.not_mem_nil, or_false] at hr
      rcases hr with h | h
      · cases h; decide
      · cases h)
    rfl
  ⟨h.2.2.2 [ordersRow] nullError [] none rfl (by decide), h.2.1 logsRow (by decide)⟩

/-- C4: if the query fails with error e, `Scrape` returns exactly e and writes
no sample to the sink. -/
theorem C4_query_error_returned (s : ScrapePrimaryKey) (g : Globals) (ctx : context.Context)
    (inst : Instance) (ch : MetricChan) (logger : slog.Logger) (e : Error)
    (hq : (inst.getDB.QueryContext ctx primaryQuery).1 = .error e) :
    (s.Scrape g ctx inst ch logger).outcome = .returned (some e) ∧
    (s.Scrape g ctx inst ch logger).sent = [] := by
  rw [scrape_of_error s g ctx inst ch logger e hq]
  exact ⟨rfl, rfl⟩

/-- C4 at a concrete input: the connection is refused. -/
theorem C4_witness_connection_refused :
    (ScrapePrimaryKey.Scrape {} mysqlGlobals liveCtx
        (answering (.error ⟨"dial tcp: connection refused"⟩)) ⟨4, false⟩
        someLogger).outcome = .returned (some ⟨"dial tcp: connection refused"⟩) ∧
    (ScrapePrimaryKey.Scrape {} mysqlGlobals liveCtx
        (answering (.error ⟨"dial tcp: connection refused"⟩)) ⟨4, false⟩
        someLogger).sent = [] :=
  C4_query_error_returned {} mysqlGlobals liveCtx
    (answering (.error ⟨"dial tcp: connection refused"⟩)) ⟨4, false⟩ someLogger
    ⟨"dial tcp: connection refused"⟩ rfl

/-- C5, as stated, fails: row 2 is the first row whose scan fails, with error
e, but row 1 scanned into a table name that is not valid UTF-8, so `Scrape`
panics on row 1: it does not return e and the sample of row 1 is not written. -/
theorem C5_counterexample_panic_before_scan_error :
    (ScrapePrimaryKey.Scrape {} mysqlGlobals liveCtx
        (answering (.ok ⟨[.ok latin1Row, .error ⟨"sql: Rows are closed"⟩], none⟩))
        ⟨2, false⟩ someLogger).outcome = .panicked ⟨"label value is not valid UTF-8"⟩ ∧
    (ScrapePrimaryKey.Scrape {} mysqlGlobals liveCtx
        (answering (.ok ⟨[.ok latin1Row, .error ⟨"sql: Rows are closed"⟩], none⟩))
        ⟨2, false⟩ someLogger).sent = [] := by
  constructor <;> decide

/-- C5, amended: when the query succeeds, row k is the first row whose scan
fails, with error e, rows 1..k-1 scanned into valid UTF-8 values, the descriptor
was built without error and the sink takes k-1 sends, `Scrape` returns exactly
e, having written exactly the samples of rows 1..k-1, in order, and none for
row k or a later row. Here `pre` holds rows 1..k-1 and `rest` the rows after
row k. -/
theorem C5_scan_error_returned (s : ScrapePrimaryKey) (g : Globals) (ctx : context.Context)
    (inst : Instance) (ch : MetricChan) (logger : slog.Logger)
    (pre : List (GoString × GoString × GoString)) (e : Error) (rest : List sql.Row)
    (lasterr : Option Error)
    (hq : (inst.getDB.QueryContext ctx primaryQuery).1 =
      .ok ⟨pre.map .ok ++ .error e :: rest, lasterr⟩)
    (hd : (CheckPrimaryKeyDesc g).err = none)
    (hv : ∀ r ∈ pre, validRow r = true)
    (hroom : pre.length ≤ ch.room) :
    (s.Scrape g ctx inst ch logger).outcome = .returned (some e) ∧
    (s.Scrape g ctx inst ch logger).sent =
      pre.map (fun r => { desc := CheckPrimaryKeyDesc g, valueType := .GaugeValue,
                          value := ⟨0, 0⟩, labelValues := [r.1, r.2.1, r.2.2] }) := by
  obtain ⟨room, closed⟩ := ch
  have h := scanRows_prefix g hd pre (.error e :: rest) closed ⟨[], [], []⟩ room hv hroom
  rw [scrape_of_rows s g ctx inst ⟨room, closed⟩ logger _ hq]
  simp only [h]
  refine ⟨by simp [scanRows], ?_⟩
  simp only [scanRows, List.append_nil]
  rfl

/-- C5 at a concrete input: two rows scan, the third does not, a fourth follows. -/
theorem C5_witness_third_row_fails :
    (ScrapePrimaryKey.Scrape {} mysqlGlobals liveCtx (answering (.ok thirdRowFails))
        ⟨2, false⟩ someLogger).outcome = .returned (some nullError) ∧
    (ScrapePrimaryKey.Scrape {} mysqlGlobals liveCtx (answering (.ok thirdRowFails))
        ⟨2, false⟩ someLogger).sent =
      [sampleOf mysqlGlobals ordersRow, sampleOf mysqlGlobals logsRow] :=
  C5_scan_error_returned {} mysqlGlobals liveCtx (answering (.ok thirdRowFails)) ⟨2, false⟩
    someLogger [ordersRow, logsRow] nullError [.ok latin1Row] none rfl (by decide) (by decide)
    (by decide)

/-- C6: in every run of `Scrape`, however it ends, every sample written to the
sink has descriptor `CheckPrimaryKeyDesc`, whose label names are
`PrimarylabelNames`, that is table_schema, table_name, engine, and carries
exactly as many label values as there are label names, 3: the table_schema,
table_name and engine of a row of the result set, in that order. -/
theorem C6_samples_match_descriptor (s : ScrapePrimaryKey) (g : Globals)
    (ctx : context.Context) (inst : Instance) (ch : MetricChan) (logger : slog.Logger)
    (m : prometheus.Metric) (hm : m ∈ (s.Scrape g ctx inst ch logger).sent) :
    m.desc = CheckPrimaryKeyDesc g ∧
    m.desc.variableLabels = PrimarylabelNames ∧
    PrimarylabelNames = [lit "table_schema", lit "table_name", lit "engine"] ∧
    m.labelValues.length = m.desc.variableLabels.length ∧
    m.labelValues.length = 3 ∧
    ∃ rows r, (inst.getDB.QueryContext ctx primaryQuery).1 = .ok rows ∧
      Except.ok r ∈ rows.rows ∧ m.labelValues = [r.1, r.2.1, r.2.2] := by
  cases hq : (inst.getDB.QueryContext ctx primaryQuery).1 with
  | error e =>
    rw [scrape_of_error s g ctx inst ch logger e hq] at hm
    simp at hm
  | ok rows =>
    rw [scrape_of_rows s g ctx inst ch logger rows hq] at hm
    obtain ⟨r, hr, rfl⟩ := scanRows_mem g rows.rows _ _ m hm
    exact ⟨rfl, rfl, rfl, rfl, rfl, rows, r, rfl, hr, rfl⟩

/-- C6 at a concrete input: the one sample written before a scan failure. -/
theorem C6_witness_failed_run :
    (sampleOf mysqlGlobals ordersRow).desc = CheckPrimaryKeyDesc mysqlGlobals ∧
    (sampleOf mysqlGlobals ordersRow).labelValues.length = 3 :=
  have h := C6_samples_match_descriptor {} mysqlGlobals liveCtx
    (answering (.ok ⟨[.ok ordersRow, .error ⟨"sql: Rows are closed"⟩], none⟩)) ⟨3, false⟩
    someLogger (sampleOf mysqlGlobals ordersRow) (by decide)
  ⟨h.1, h.2.2.2.2.1⟩

/-- C7: `Name()` is the constant "primary_key", and for every non-empty
namespace the fully qualified name of `CheckPrimaryKeyDesc` is the namespace,
"_", `Name()` and "_check": namespace, subsystem and metric name joined by
"_", with the name of the scraper as the subsystem. -/
theorem C7_name_and_fqname (s : ScrapePrimaryKey) :
    s.Name = lit "primary_key" ∧
    ∀ g : Globals, g.nspace ≠ [] →
      (CheckPrimaryKeyDesc g).fqName = g.nspace ++ lit "_" ++ s.Name ++ lit "_check" ∧
      (CheckPrimaryKeyDesc g).fqName =
        strings.Join [g.nspace, s.Name, lit "check"] (lit "_") := by
  have h1 : primarySubsystem ≠ [] := by decide
  have h2 : lit "check" ≠ [] := by decide
  have h3 : lit "_check" = lit "_" ++ lit "check" := by decide
  refine ⟨rfl, fun g hns => ⟨?_, ?_⟩⟩
  · simp [CheckPrimaryKeyDesc, prometheus.NewDesc, prometheus.BuildFQName, hns, h1, h2, h3,
      strings.Join, ScrapePrimaryKey.Name]
  · simp [CheckPrimaryKeyDesc, prometheus.NewDesc, prometheus.BuildFQName, hns, h1, h2,
      ScrapePrimaryKey.Name]

/-- C7 at a concrete input: namespace `mysql`. -/
theorem C7_witness_mysql :
    (CheckPrimaryKeyDesc mysqlGlobals).fqName = lit "mysql_primary_key_check" :=
  (((C7_name_and_fqname {}).2 mysqlGlobals (by decide)).1).trans (by decide)

/-- C8: `Version()` is the constant 5.7 as a `float64`, the value nearest to
57/10. Under the eligibility rule, an enabled `ScrapePrimaryKey` is eligible for
a reported version v iff v is at least that value (a disabled one never is),
which for a `float64` v is the same as v being at least 57/10: it is excluded
at 5.6 and eligible at 5.7 and at 8.0. -/
theorem C8_version_and_eligibility (s : ScrapePrimaryKey) :
    s.Version = float64.ofConst 57 10 ∧
    s.Version.toRat = 6417629469002957 / 2 ^ 50 ∧
    |s.Version.toRat - 57 / 10| ≤ 1 / 2 ^ 51 ∧
    (∀ (enabled : Bool) (v : float64),
      eligible enabled s.Version v = true ↔ enabled = true ∧ s.Version.toRat ≤ v.toRat) ∧
    (∀ v : float64, v.mant < 2 ^ 53 →
      (eligible true s.Version v = true ↔ (57 / 10 : ℚ) ≤ v.toRat)) ∧
    eligible true s.Version (float64.ofConst 56 10) = false ∧
    eligible true s.Version (float64.ofConst 57 10) = true ∧
    eligible true s.Version (float64.ofConst 8 1) = true := by
  cases s
  have hval : ScrapePrimaryKey.Version {} = ⟨6417629469002957, 50⟩ := by decide
  have hrat : (ScrapePrimaryKey.Version {}).toRat = 6417629469002957 / 2 ^ 50 := by
    rw [hval]
    norm_num [float64.toRat]
  refine ⟨rfl, hrat, ?_, ?_, ?_, by decide, by decide, by decide⟩
  · rw [hrat, abs_le]
    constructor <;> norm_num
  · intro enabled v
    simp [eligible, float64_le_iff]
  · intro v hm
    have hle : eligible true (ScrapePrimaryKey.Version {}) v = true ↔
        6417629469002957 * 2 ^ v.scale ≤ v.mant * 2 ^ 50 := by
      rw [hval]
      simp only [eligible, Bool.true_and, decide_eq_true_eq]
      exact Iff.rfl
    rw [hle, float64.toRat, decimal_le_iff]
    constructor
    · intro h
      have e50 : (2 : ℕ) ^ 50 = 1125899906842624 := by norm_num
      rw [e50] at h
      generalize 2 ^ v.scale = t at h ⊢
      omega
    · exact nearest_double_bound v.mant v.scale hm

/-- C8 at a concrete input: the reported version 8.0. -/
theorem C8_witness_version_8 : (57 / 10 : ℚ) ≤ (float64.ofConst 8 1).toRat :=
  ((C8_version_and_eligibility {}).2.2.2.2.1 (float64.ofConst 8 1) (by decide)).mp
    (C8_version_and_eligibility {}).2.2.2.2.2.2.2

/-- C9: every call of `Scrape` issues exactly one query: once the call is over
the database has received one text more than before, and that text is the
constant `primaryQuery`, whatever the context, instance and logger
(`fmt.Sprint` leaves the constant as it is); the samples and the outcome of the
call depend on the database through its answer to that text only. The text
holds one SELECT, FROM information_schema.tables, one `;` with only blanks
after it, and the literal exclusions of the schemas performance_schema and
mysql; it does not mention processlist. -/
theorem C9_one_query_constant_text (s : ScrapePrimaryKey) (g : Globals) (ctx : context.Context)
    (inst : Instance) (ch : MetricChan) (logger : slog.Logger) :
    (s.Scrape g ctx inst ch logger).queries = inst.getDB.log ++ [primaryQuery] ∧
    (∀ other : Instance,
      other.getDB.answer ctx primaryQuery = inst.getDB.answer ctx primaryQuery →
      (s.Scrape g ctx other ch logger).sent = (s.Scrape g ctx inst ch logger).sent ∧
      (s.Scrape g ctx other ch logger).outcome = (s.Scrape g ctx inst ch logger).outcome) ∧
    fmt.Sprint primaryQuery = primaryQuery ∧
    countOcc (lit "SELECT") primaryQuery = 1 ∧
    countOcc (lit ";") primaryQuery = 1 ∧
    lit ";\n\t\t" <:+ primaryQuery ∧
    lit "FROM\n    \t\tinformation_schema.tables t\n" <:+: primaryQuery ∧
    lit "AND t.table_schema!='performance_schema'\n" <:+: primaryQuery ∧
    lit "AND t.table_schema!='mysql'\n" <:+: primaryQuery ∧
    countOcc (lit "processlist") primaryQuery = 0 := by
  refine ⟨?_, fun other ho => ?_, rfl, by decide, by decide, by decide, by decide, by decide,
    by decide, by decide⟩
  · cases hq : (inst.getDB.QueryContext ctx primaryQuery).1 with
    | error e => rw [scrape_of_error s g ctx inst ch logger e hq]
    | ok rows => rw [scrape_of_rows s g ctx inst ch logger rows hq]
  · have ho' : (other.getDB.QueryContext ctx primaryQuery).1 =
        (inst.getDB.QueryContext ctx primaryQuery).1 := ho
    cases hq : (inst.getDB.QueryContext ctx primaryQuery).1 with
    | error e =>
      rw [scrape_of_error s g ctx inst ch logger e hq,
        scrape_of_error s g ctx other ch logger e (ho'.trans hq)]
      exact ⟨rfl, rfl⟩
    | ok rows =>
      rw [scrape_of_rows s g ctx inst ch logger rows hq,
        scrape_of_rows s g ctx other ch logger rows (ho'.trans hq)]
      exact ⟨rfl, rfl⟩

/-- C9 at a concrete input: a database that refuses every text but
`primaryQuery` receives that one text and delivers its row. -/
theorem C9_witness_only_primaryQuery_answered :
    (ScrapePrimaryKey.Scrape {} mysqlGlobals liveCtx
        (answeringOnly (.ok ⟨[.ok ordersRow], none⟩)) ⟨1, false⟩ someLogger).queries =
      [primaryQuery] ∧
    (ScrapePrimaryKey.Scrape {} mysqlGlobals liveCtx
        (answeringOnly (.ok ⟨[.ok ordersRow], none⟩)) ⟨1, false⟩ someLogger).sent =
      [sampleOf mysqlGlobals ordersRow] :=
  have h := C9_one_query_constant_text {} mysqlGlobals liveCtx
    (answering (.ok ⟨[.ok ordersRow], none⟩)) ⟨1, false⟩ someLogger
  have h' := C9_one_query_constant_text {} mysqlGlobals liveCtx
    (answeringOnly (.ok ⟨[.ok ordersRow], none⟩)) ⟨1, false⟩ someLogger
  ⟨h'.1, (h.2.1 (answeringOnly (.ok ⟨[.ok ordersRow], none⟩))
    (by simp [answeringOnly, answering, Instance.getDB])).1.trans (by decide)⟩

/-- C10, as stated, fails: the query has delivered a row, the sink takes no
further send, and the context is cancelled from instant 1 on. With the channel
open and undrained `Scrape` stays blocked on the send; with the channel closed
the send panics. In neither case does `Scrape` return a cancellation failure. -/
theorem C10_counterexample_blocked_send :
    cancelledCtx.Err 1 = some ⟨"context canceled"⟩ ∧
    (ScrapePrimaryKey.Scrape {} mysqlGlobals cancelledCtx
        (answering (.ok ⟨[.ok ordersRow], none⟩)) ⟨0, false⟩ someLogger).outcome = .blocked ∧
    (ScrapePrimaryKey.Scrape {} mysqlGlobals cancelledCtx
        (answering (.ok ⟨[.ok ordersRow], none⟩)) ⟨0, true⟩ someLogger).outcome =
      .panicked ⟨"send on closed channel"⟩ ∧
    (ScrapePrimaryKey.Scrape {} mysqlGlobals cancelledCtx
        (answering (.ok ⟨[.ok ordersRow], none⟩)) ⟨0, false⟩ someLogger).sent = [] := by
  refine ⟨by decide, by decide, by decide, by decide⟩

/-- C10, amended: the send on the sink is a plain send that does not watch the
context. When the sink takes exactly the samples of the rows `pre` and no
further send, and the next row scans into valid UTF-8 values (the descriptor
being free of error), `Scrape` writes the samples of `pre` and then does not
return, whether the context is cancelled or not: it stays blocked on the send
of the next sample if the channel is open and undrained, and the send panics if
the channel is closed. -/
theorem C10_send_ignores_the_context (s : ScrapePrimaryKey) (g : Globals)
    (ctx : context.Context) (inst : Instance) (logger : slog.Logger) (closed : Bool)
    (pre : List (GoString × GoString × GoString)) (r : GoString × GoString × GoString)
    (rest : List sql.Row) (lasterr : Option Error)
    (hq : (inst.getDB.QueryContext ctx primaryQuery).1 =
      .ok ⟨pre.map .ok ++ .ok r :: rest, lasterr⟩)
    (hd : (CheckPrimaryKeyDesc g).err = none)
    (hv : ∀ x ∈ pre, validRow x = true) (hr : validRow r = true) :
    (s.Scrape g ctx inst ⟨pre.length, closed⟩ logger).sent = pre.map (sampleOf g) ∧
    (closed = false → (s.Scrape g ctx inst ⟨pre.length, closed⟩ logger).outcome = .blocked) ∧
    (closed = true → (s.Scrape g ctx inst ⟨pre.length, closed⟩ logger).outcome =
      .panicked ⟨"send on closed channel"⟩) ∧
    (∀ e, (s.Scrape g ctx inst ⟨pre.length, closed⟩ logger).outcome ≠ .returned e) := by
  have h := scanRows_prefix g hd pre (.ok r :: rest) closed ⟨[], [], []⟩ pre.length hv
    (le_refl _)
  rw [scrape_of_rows s g ctx inst ⟨pre.length, closed⟩ logger _ hq]
  cases closed <;> simp [h, scanRows_ok, must_ok g r hd hr, MetricChan.send]

/-- C10 at a concrete input: the sink takes one sample, a second row follows,
and the context is cancelled. -/
theorem C10_witness_second_send_blocks :
    (ScrapePrimaryKey.Scrape {} mysqlGlobals cancelledCtx
        (answering (.ok ⟨[.ok ordersRow, .ok logsRow], none⟩)) ⟨1, false⟩
        someLogger).outcome = .blocked ∧
    (ScrapePrimaryKey.Scrape {} mysqlGlobals cancelledCtx
        (answering (.ok ⟨[.ok ordersRow, .ok logsRow], none⟩)) ⟨1, false⟩
        someLogger).sent = [sampleOf mysqlGlobals ordersRow] :=
  have h := C10_send_ignores_the_context {} mysqlGlobals cancelledCtx
    (answering (.ok ⟨[.ok ordersRow, .ok logsRow], none⟩)) someLogger false [ordersRow]
    logsRow [] none rfl (by decide) (by decide) (by decide)
  ⟨h.2.1 rfl, h.1⟩

end collector
